import Mathlib

/-!
Formal model of the NextECG signal-processing pipeline.

Shallow embedding, in Lean 4, of the core signal-processing and analysis
code of the `nextecg` repository:

* the serial-line sample parser and lead derivation
  (`src/pages/SixLeadECG/ECGVisualizer.jsx`, `connect`),
* the ring-buffer (re)initialisation effect,
* the auto-stop excerpt extraction (`stopRecording`),
* the multi-lead R-peak detector (`detectRPeakMultiLead`),
* the advanced HRV engine (`calculateAdvancedHRV`),
* the report-time risk engine (`src/pages/SixLeadECG/RiskAnalysis.jsx`).

Modelling conventions:

* JavaScript numbers are modelled as exact rationals (`ℚ`).  The source
  performs only arithmetic that is exact on the inputs we reason about;
  floating-point rounding is not modelled.
* `Math.round` is round-half-up, `Math.round x = ⌊x + 1/2⌋` (`jsRound`).
* `Math.round (Math.sqrt q)` for a rational `q ≥ 0` is modelled exactly by
  `roundSqrtQ q`; see its documentation.
* JavaScript strings are Lean `String`s; the character-class regex
  `-?\d+(?:\.\d+)?` used by the parser is implemented directly as a
  left-to-right scanner (`scanNumTokens`).
* React `useState` values and `useRef` cells become record fields that are
  threaded through explicit step functions.  A JavaScript closure that
  captures a `useState` value by value (and therefore never observes later
  `setX` updates) is modelled with two separate fields, one for the captured
  value and one for the live state.
-/

namespace NextECG

set_option maxRecDepth 8000

/-- JavaScript `Math.round`: round half toward `+∞`. -/
def jsRound (q : ℚ) : ℤ := ⌊q + 1/2⌋

/-- JavaScript `Math.floor` on a rational. -/
def jsFloor (q : ℚ) : ℤ := ⌊q⌋

/-- The value `Math.round (Math.sqrt q)` for `q ≥ 0`, computed exactly on rationals.
For `n = ⌊√q + 1/2⌋` we have `2n - 1 ≤ √(4q) < 2n + 1`, i.e.
`(2n-1)² ≤ 4q < (2n+1)²`, and since the bounds are integers this is
equivalent to `2n - 1 ≤ Nat.sqrt ⌊4q⌋ ≤ 2n`, i.e.
`n = (Nat.sqrt ⌊4q⌋ + 1) / 2` with Nat division. -/
def roundSqrtQ (q : ℚ) : ℕ := (Nat.sqrt (Int.toNat ⌊4 * q⌋) + 1) / 2

/-- JavaScript `arr.slice(-n)` for `n ≥ 0`: the last `n` elements
(the whole list if `n ≥ arr.length`). -/
def takeLast {α : Type} (n : ℕ) (l : List α) : List α := l.drop (l.length - n)

/-- JavaScript `Math.max` over a list, JavaScript style: maximum of the elements,
`0` for the empty list (the source only applies it to nonempty lists). -/
def maxListQ : List ℚ → ℚ
  | [] => 0
  | x :: xs => xs.foldl max x

/-- Arithmetic mean of a list of rationals (`sum / length`; division by the
cast length, so the empty list yields `0` by rational division by zero). -/
def meanQ (l : List ℚ) : ℚ := l.sum / l.length

/-! The numeric-token scanner.

`line.match(-?\d+(?:\.\d+)?)` followed by `parseFloat` on each match
(ECGVisualizer.jsx line 528).  The regex engine scans left to right; at each
position it matches an optional sign directly followed by one or more digits
and an optional fractional part (a dot followed by at least one digit, taken
greedily); on failure it advances one character.  `parseFloat` of such a
token is the exact decimal value, which is a rational. -/

/-- Is `c` an ASCII digit? -/
def isDigitCh (c : Char) : Bool := '0' ≤ c && c ≤ '9'

/-- Numeric value of a digit character. -/
def digitVal (c : Char) : ℕ := c.toNat - '0'.toNat

/-- The natural number denoted by a list of digit characters (base 10). -/
def natOfDigits (ds : List Char) : ℕ := ds.foldl (fun a c => a * 10 + digitVal c) 0

/-- Split a character list into its leading run of digits and the rest. -/
def spanDigits (l : List Char) : List Char × List Char :=
  (l.takeWhile isDigitCh, l.dropWhile isDigitCh)

/-- Parse one numeric token (digits, then optionally `.` plus digits) starting
at the head of `l`, which is assumed to start with a digit.  Returns the
(unsigned) value and the unconsumed rest. -/
def readNumToken (l : List Char) : ℚ × List Char :=
  let (ds, r1) := spanDigits l
  match r1 with
  | '.' :: r2 =>
    let (fs, r3) := spanDigits r2
    if fs.isEmpty then ((natOfDigits ds : ℚ), r1)
    else ((natOfDigits ds : ℚ) + (natOfDigits fs : ℚ) / (10 ^ fs.length : ℕ), r3)
  | _ => ((natOfDigits ds : ℚ), r1)

/-- Fuel-indexed scanner; the fuel is an upper bound on the number of scan
steps (each step consumes at least one character). -/
def scanNumAux : ℕ → List Char → List ℚ
  | 0, _ => []
  | _ + 1, [] => []
  | fuel + 1, c :: cs =>
    if isDigitCh c then
      let (v, r) := readNumToken (c :: cs)
      v :: scanNumAux fuel r
    else if c = '-' then
      match cs with
      | d :: _ =>
        if isDigitCh d then
          let (v, r) := readNumToken cs
          (-v) :: scanNumAux fuel r
        else scanNumAux fuel cs
      | [] => []
    else scanNumAux fuel cs

/-- All numeric tokens of a line, as exact rationals:
`(line.match(-?\d+(?:\.\d+)?) || []).map(parseFloat)`. -/
def scanNumTokens (line : String) : List ℚ :=
  scanNumAux line.data.length line.data

/-! The numeric-line parser (ECGVisualizer.jsx lines 527–541)

Given the numeric tokens of a non-JSON line: at least 6 tokens are taken as
the six leads directly; exactly 2 tokens are taken as Lead I and Lead II and
the four remaining leads are derived with `RA = 0`, `LA = I`, `LL = II`. -/

/-- Lead derivation from measured `lead1` (I) and `lead2` (II), exactly as in
the source: `III = II − I`, `aVR = RA − (LA+LL)/2`, `aVL = LA − (RA+LL)/2`,
`aVF = LL − (RA+LA)/2` with `RA = 0`. -/
def deriveSixFromTwo (lead1 lead2 : ℚ) : List ℚ :=
  let lead3 := lead2 - lead1
  let ra : ℚ := 0
  let la := lead1
  let ll := lead2
  let avr := ra - (la + ll) / 2
  let avl := la - (ra + ll) / 2
  let avf := ll - (ra + la) / 2
  [lead1, lead2, lead3, avr, avl, avf]

/-- The numeric fallback of the line parser: `nums.length >= 6` takes the
first six tokens, `nums.length === 2` derives the six leads, anything else
produces no sample. -/
def parseNums (nums : List ℚ) : Option (List ℚ) :=
  if 6 ≤ nums.length then some (nums.take 6)
  else if nums.length = 2 then
    match nums with
    | a :: b :: _ => some (deriveSixFromTwo a b)
    | _ => none
  else none

/-! Ring-buffer (re)initialisation (ECGVisualizer.jsx lines 66–70)

```js
const samples = Math.max(1, Math.floor(sampleRate * secondsWindow))
bufferRef.current = leads.map(() => new Float32Array(samples))
writeIndexRef.current = 0
```

run by a `useEffect` with dependency list `[secondsWindow, sampleRate]`,
i.e. whenever either value changes.  The previous buffers are not read:
fresh zero-filled arrays replace them and the shared cursor is reset, so all
prior history is discarded.  Both `sampleRate` and `secondsWindow` are
produced by `parseInt` in their `onChange` handlers (and by integer
defaults), hence are always integers; we model them as `ℤ`. -/

/-- State of the per-lead ring buffers: six buffers plus the shared cursor. -/
structure BufState where
  buffers : List (List ℚ)
  writeIndex : ℕ
  deriving Repr, DecidableEq

/-- The capacity used by the buffer-initialisation effect. -/
def bufCapacity (sampleRate secondsWindow : ℤ) : ℕ :=
  (max 1 (jsFloor ((sampleRate : ℚ) * (secondsWindow : ℚ)))).toNat

/-- The buffer-initialisation effect: six fresh zero-filled buffers of the
computed capacity, cursor reset to `0`. -/
def initBuffers (sampleRate secondsWindow : ℤ) : BufState :=
  { buffers := List.replicate 6 (List.replicate (bufCapacity sampleRate secondsWindow) 0)
    writeIndex := 0 }

/-! String helpers used by the serial read loop: JavaScript `trim`,
`toLowerCase` (ASCII suffices for the keywords involved) and
`String.prototype.includes` (substring containment). -/

/-- The whitespace characters stripped by `trim` (ASCII subset; the device
lines only ever carry these). -/
def isSpaceCh (c : Char) : Bool := c = ' ' || c = '\t' || c = '\n' || c = '\r'

/-- JavaScript `line.trim()`. -/
def trimE (s : String) : String :=
  ⟨((s.data.dropWhile isSpaceCh).reverse.dropWhile isSpaceCh).reverse⟩

/-- ASCII `toLowerCase` on one character. -/
def jsToLowerCh (c : Char) : Char :=
  if 'A' ≤ c && c ≤ 'Z' then Char.ofNat (c.toNat + 32) else c

/-- JavaScript `line.toLowerCase()` (ASCII). -/
def toLowerStr (s : String) : String := ⟨s.data.map jsToLowerCh⟩

/-- Does `t` start with `p`? -/
def startsWithCh : List Char → List Char → Bool
  | [], _ => true
  | _ :: _, [] => false
  | a :: ps, b :: ts => a = b && startsWithCh ps ts

/-- Does `t` contain `p` as a contiguous run? -/
def containsSubCh (p : List Char) : List Char → Bool
  | [] => p.isEmpty
  | c :: ts => startsWithCh p (c :: ts) || containsSubCh p ts

/-- JavaScript `s.includes(pat)`. -/
def containsSub (s pat : String) : Bool := containsSubCh pat.data s.data

/-! The serial read loop (ECGVisualizer.jsx, `connect`, lines 475–591).

`connect` calls `setIsCalibrating(true)` and then runs the read loop.  The
loop body handles each complete line: calibration control lines toggle the
calibration state via `setIsCalibrating`; other lines are parsed; parsed
samples are gated by `if (isCalibrating) continue` (lines 547–549), then
converted to millivolts, optionally filtered, appended to the active
recording session, and written to the ring buffers at the shared cursor.

`isCalibrating` is a `useState` value.  The loop closure captures the
`const isCalibrating` binding of the render in which `connect` was created;
`setIsCalibrating` swaps the state for subsequent renders but can never
change that captured binding.  The model therefore carries two fields:
`calibCaptured` (the binding the loop's gate actually reads, fixed for the
whole run) and `isCalibrating` (the live React state that the control lines
and the connect-time `setIsCalibrating(true)` write).

The structured-JSON branch of the parser (lines 520–526) applies only to
JSON object lines carrying all six lead keys; no such line appears in the
traces below, on which the branch returns nothing and the numeric fallback
decides, so the model goes straight to the numeric fallback.

The 5-second calibration fallback timer and the auto-stop trigger inside
the recording block are wall-clock driven and are not part of the per-line
data path modelled here. -/

/-- One-pole high-pass filter state for one lead (`{x1, y1}`). -/
structure HPState where
  x1 : ℚ
  y1 : ℚ
  deriving Repr, DecidableEq

/-- One-pole low-pass filter state for one lead (`{y1}`). -/
structure LPState where
  y1 : ℚ
  deriving Repr, DecidableEq

/-- Configuration captured by the read loop: filter coefficients (the source
computes them from `π` and the sample rate; they enter the model as
parameters), filter toggle, unit setting and ring capacity. -/
structure SerialConfig where
  hpAlpha : ℚ
  lpAlpha : ℚ
  filterOn : Bool
  adcUnits : Bool
  capacity : ℕ
  deriving Repr, DecidableEq

/-- `valueToMv` (lines 109–118): ADC counts are scaled by
`VREF / ADC_MAX × 1000` with `VREF = 5.0`, `ADC_MAX = 1023`; millivolt
input passes through. -/
def valueToMv (cfg : SerialConfig) (v : ℚ) : ℚ :=
  if cfg.adcUnits then v * 5 / 1023 * 1000 else v

/-- `filterSample` (lines 238–251) for one lead: high-pass
`y = aHP·(y1 + x − x1)` then low-pass `y = y1 + aLP·(yHP − y1)`,
updating both states. -/
def filterSample (aHP aLP : ℚ) (hp : HPState) (lp : LPState) (x : ℚ) :
    ℚ × HPState × LPState :=
  let yHP := aHP * (hp.y1 + x - hp.x1)
  let y := lp.y1 + aLP * (yHP - lp.y1)
  (y, ⟨x, yHP⟩, ⟨y⟩)

/-- Apply `filterSample` lead-by-lead across the six-entry sample vector and
the per-lead state lists. -/
def filterSix (aHP aLP : ℚ) :
    List ℚ → List HPState → List LPState → List ℚ × List HPState × List LPState
  | x :: xs, h :: hs, l :: ls =>
    let (y, h2, l2) := filterSample aHP aLP h l x
    let (ys, hs2, ls2) := filterSix aHP aLP xs hs ls
    (y :: ys, h2 :: hs2, l2 :: ls2)
  | _, _, _ => ([], [], [])

/-- The mutable state touched by the serial read loop. -/
structure SerialState where
  calibCaptured : Bool
  isCalibrating : Bool
  buffers : List (List ℚ)
  writeIndex : ℕ
  recActive : Bool
  recData : List (List ℚ)
  hpState : List HPState
  lpState : List LPState
  deriving Repr, DecidableEq

/-- The loop body for one complete line (lines 504–582). -/
def processLine (cfg : SerialConfig) (s : SerialState) (rawLine : String) :
    SerialState :=
  let line := trimE rawLine
  if line.data.isEmpty then s
  else
    let lower := toLowerStr line
    if containsSub lower "calibration complete" || containsSub lower "calibrated" ||
        containsSub lower "calibration done" then
      { s with isCalibrating := false }
    else if containsSub lower "starting" && containsSub lower "calibration" then
      { s with isCalibrating := true }
    else
      match parseNums (scanNumTokens line) with
      | none => s
      | some arr =>
        if s.calibCaptured then s
        else
          let mvs0 := arr.map (valueToMv cfg)
          let (mvs, hp2, lp2) :=
            if cfg.filterOn then filterSix cfg.hpAlpha cfg.lpAlpha mvs0 s.hpState s.lpState
            else (mvs0, s.hpState, s.lpState)
          let recData2 :=
            if s.recActive then s.recData.zipWith (fun l v => l ++ [v]) mvs else s.recData
          let samples0 := (s.buffers.headD []).length
          let samples := if samples0 = 0 then cfg.capacity else samples0
          { s with
            hpState := hp2
            lpState := lp2
            recData := recData2
            buffers := s.buffers.zipWith (fun b v => b.set s.writeIndex v) mvs
            writeIndex := (s.writeIndex + 1) % samples }

/-- State at loop entry: `setIsCalibrating(true)` has run (live state `true`),
the closure has captured the render-time value `calib0` (`false` on a normal
first connect), buffers are freshly initialised, no recording is active, and
all filter state is zero. -/
def initConnState (calib0 : Bool) : SerialState :=
  { calibCaptured := calib0
    isCalibrating := true
    buffers := (initBuffers 125 5).buffers
    writeIndex := 0
    recActive := false
    recData := List.replicate 6 []
    hpState := List.replicate 6 ⟨0, 0⟩
    lpState := List.replicate 6 ⟨0⟩ }

/-- Run the read loop over a sequence of complete lines. -/
def runConnect (cfg : SerialConfig) (calib0 : Bool) (lines : List String) :
    SerialState :=
  lines.foldl (processLine cfg) (initConnState calib0)

/-- The configuration in force with the component defaults:
`sampleRate = 125`, `secondsWindow = 5`, millivolt units, filter enabled. -/
def defaultCfg (hpA lpA : ℚ) : SerialConfig :=
  { hpAlpha := hpA, lpAlpha := lpA, filterOn := true, adcUnits := false
    capacity := bufCapacity 125 5 }

/-! The auto-stop excerpt (`stopRecording`, lines 621–655).

On an automatic stop at `captureSecond` (called with
`captureSecond = CAPTURE_SECONDS = 15`), each recorded lead array is cut to
the one-second excerpt ending at the capture boundary:

```js
const oneSecondSamples = Math.floor(1 * sampleRateRef.current)
const sampleIndexEnd = Math.floor(captureSecond * sampleRateRef.current)
let startIdx = sampleIndexEnd - oneSecondSamples
if (startIdx < 0) startIdx = 0
if (arr.length >= sampleIndexEnd) {
  snap[ln] = arr.slice(Math.max(0, startIdx), Math.min(sampleIndexEnd, arr.length))
} else {
  snap[ln] = arr.length > oneSecondSamples ? arr.slice(-oneSecondSamples) : arr.slice()
}
snap.__meta = { excerptSeconds: 1, captureAt: captureSecond, sampleIndexEnd }
```

The sample rate is an integer (`parseInt` setter), so the two `Math.floor`
applications are exact. -/

/-- JavaScript `arr.slice(a, b)` for clamped nonnegative `a`, `b`. -/
def jsSliceNN {α : Type} (l : List α) (a b : ℕ) : List α := (l.take b).drop a

/-- The `__meta` object attached to an auto-stop snapshot. -/
structure AutoMeta where
  excerptSeconds : ℚ
  captureAt : Option ℚ
  sampleIndexEnd : ℕ
  deriving Repr, DecidableEq

/-- The auto-stop excerpt of one recorded lead array, with its metadata. -/
def autoStopSnap (sr captureSecond : ℕ) (arr : List ℚ) : List ℚ × AutoMeta :=
  let oneSecondSamples := sr
  let sampleIndexEnd := captureSecond * sr
  let startIdx := sampleIndexEnd - oneSecondSamples
  let cut :=
    if sampleIndexEnd ≤ arr.length then
      jsSliceNN arr startIdx (min sampleIndexEnd arr.length)
    else if oneSecondSamples < arr.length then takeLast oneSecondSamples arr
    else arr
  (cut, ⟨1, some (captureSecond : ℚ), sampleIndexEnd⟩)

/-! The normalization stage of `stopRecording` (lines 657–693) and the
published report.

After building `snap`, `stopRecording` constructs a fresh object
`normalized`: for each of the six leads it copies
`snap[longLabel] || snap[short] || snap['Lead short']` onto both the short
and the long alias key (`setLead`), optionally derives missing leads, and
publishes `normalized` via `setRecordedData`.  Two consequences of the
source are fixed in the model rather than re-branched:

* `stopRecording` always populates all six long-label keys of `snap` with
  arrays (`recordRef.current.data[ln] || []`), and a JavaScript array —
  even an empty one — is truthy, so `setLead` always copies the snap array
  and the `advancedReport` derivation conditions (`!normalized['III']` and
  so on) are always false.  The normalization is therefore the identity on
  the six lead arrays.
* `__meta` is not among the keys copied into `normalized`, so the published
  report object has no `__meta` property; reading `recordedData.__meta`
  (as both `drawReportPage` implementations do) yields `undefined`.  The
  model renders the absent property as `meta := none`.

`recordRef.current.data` holds one unbounded sample list per lead;
`RecSession` models it. -/

/-- The per-lead sample lists of a recording session
(`recordRef.current.data`). -/
structure RecSession where
  leadI : List ℚ
  leadII : List ℚ
  leadIII : List ℚ
  avr : List ℚ
  avl : List ℚ
  avf : List ℚ
  deriving Repr, DecidableEq

/-- The intermediate `snap` object of an auto stop: the six cut lead arrays
plus the `__meta` tag of line 650. -/
structure SnapSix where
  leadI : List ℚ
  leadII : List ℚ
  leadIII : List ℚ
  avr : List ℚ
  avl : List ℚ
  avf : List ℚ
  meta : AutoMeta
  deriving Repr, DecidableEq

/-- The published report object (`normalized`, handed to
`setRecordedData`): the six lead arrays under both alias keys (one field
per lead here, since both aliases hold the same array), and `meta := none`
because `__meta` is never copied. -/
structure ReportSix where
  leadI : List ℚ
  leadII : List ℚ
  leadIII : List ℚ
  avr : List ℚ
  avl : List ℚ
  avf : List ℚ
  meta : Option AutoMeta
  deriving Repr, DecidableEq

/-- The auto-stop `snap` construction (lines 633–650): each lead cut by
`autoStopSnap`, and the excerpt metadata attached once. -/
def buildAutoSnap (sr captureSecond : ℕ) (rec : RecSession) : SnapSix :=
  { leadI := (autoStopSnap sr captureSecond rec.leadI).1
    leadII := (autoStopSnap sr captureSecond rec.leadII).1
    leadIII := (autoStopSnap sr captureSecond rec.leadIII).1
    avr := (autoStopSnap sr captureSecond rec.avr).1
    avl := (autoStopSnap sr captureSecond rec.avl).1
    avf := (autoStopSnap sr captureSecond rec.avf).1
    meta := ⟨1, some (captureSecond : ℚ), captureSecond * sr⟩ }

/-- The normalization stage (lines 657–693) on a snap whose six lead keys
are all present: the lead arrays are copied unchanged (see the section
comment for why the derivation branches cannot fire) and `__meta` is
dropped. -/
def normalizeSnap (snap : SnapSix) : ReportSix :=
  { leadI := snap.leadI
    leadII := snap.leadII
    leadIII := snap.leadIII
    avr := snap.avr
    avl := snap.avl
    avf := snap.avf
    meta := none }

/-- The full auto-stop path of `stopRecording`: snapshot, then
normalization; the result is what `setRecordedData` publishes and what the
report page reads. -/
def stopRecordingAuto (sr captureSecond : ℕ) (rec : RecSession) : ReportSix :=
  normalizeSnap (buildAutoSnap sr captureSecond rec)

/-- A 16-second recording session at 125 Hz: 2000 samples on every lead. -/
def recSixteenSec : RecSession :=
  { leadI := List.replicate 2000 0
    leadII := List.replicate 2000 0
    leadIII := List.replicate 2000 0
    avr := List.replicate 2000 0
    avl := List.replicate 2000 0
    avf := List.replicate 2000 0 }

/-! The multi-lead R-peak detector (`detectRPeakMultiLead`,
ECGVisualizer.jsx lines 1146–1270).

Per incoming sample vector `mvs`, at wall-clock time `now` (the source reads
`Date.now()`; the model takes `now` as an input):

* refractory return if `now` is within 300 ms of the last detected peak's
  timestamp (before anything is buffered);
* push `{signal := mvs[1], absSignal, time := now}` onto a sliding buffer
  capped at 15 entries (oldest shifted out);
* require at least 9 buffered samples;
* test the middle buffer sample against an adaptive threshold
  `max(0.15, maxAbs·0.5, avgAbs·2)` and a strict local max (or,
  symmetrically, strict local min beyond `−threshold`) over ±3 neighbours;
* on a detected peak, compute the R-R interval against the previous detected
  peak's timestamp, keep it only if it lies in `[333, 1500]` ms and, when at
  least 3 recent intervals exist, does not deviate from the mean of the last
  8 by more than 30 %; an accepted interval is pushed onto the interval list
  (capped at 60, oldest shifted out) and updates the smoothed heart rate;
* finally the last-peak timestamp is set to the middle sample's time.

`track` is a history variable added by the model (not a source field): it
records, for every detected peak, the pair `(now, peakTime)` of the
processing time and the peak's own timestamp — exactly the successive
values written to `lastRPeakRef`.  The source's `calculateAdvancedHRV()`
call on acceptance only recomputes display metrics from the interval list
and is modelled separately as a pure function (`advHRV`). -/

/-- The `while (list.length > n) list.shift()` cap: drop oldest entries
until at most `n` remain. -/
def capList {α : Type} (n : ℕ) (l : List α) : List α :=
  if n < l.length then l.drop (l.length - n) else l

/-- One entry of the detector's sliding sample buffer. -/
structure DetSample where
  signal : ℚ
  absSignal : ℚ
  time : ℤ
  deriving Repr, DecidableEq

/-- The detector's mutable state. -/
structure DetState where
  buf : List DetSample
  lastRPeak : Option ℤ
  rr : List ℤ
  heartRate : ℤ
  track : List (ℤ × ℤ)
  deriving Repr, DecidableEq

/-- Initial detector state (fresh connection). -/
def detInit : DetState :=
  { buf := [], lastRPeak := none, rr := [], heartRate := 0, track := [] }

/-- Indices `i ≠ mid` with `mid − 3 ≤ i ≤ mid + 3` and `i < len`
(the source loop also skips `i < 0`; with `len ≥ 9` the middle index is at
least 4, so Nat truncation at `mid − 3` is exact). -/
def neighborIdx (mid len : ℕ) : List ℕ :=
  (List.range len).filter (fun i => mid - 3 ≤ i && i ≤ mid + 3 && i ≠ mid)

/-- The ectopic-beat rejection test (lines 1225–1236): with at least 3
recent intervals, reject when the new interval deviates from the mean of the
last 8 by more than 30 %. -/
def ectopicAccept (rr : List ℤ) (rrInterval : ℤ) : Bool :=
  let recentRR := takeLast 8 rr
  if 3 ≤ recentRR.length then
    let avgRecent := meanQ (recentRR.map (fun i => (i : ℚ)))
    let deviation := |(rrInterval : ℚ) - avgRecent| / avgRecent
    decide (deviation ≤ 30 / 100)
  else true

/-- The smoothed-heart-rate update (lines 1250–1258): mean of the last 4
intervals, reported only when the rounded rate lies in `[40, 180]` bpm. -/
def smoothedHR (rr2 : List ℤ) (current : ℤ) : ℤ :=
  if 2 ≤ rr2.length then
    let recentSlice := takeLast 4 rr2
    let avgRR := meanQ (recentSlice.map (fun i => (i : ℚ)))
    let smoothed := jsRound (60000 / avgRR)
    if 40 ≤ smoothed ∧ smoothed ≤ 180 then smoothed else current
  else current

/-- The peak-acceptance stage (lines 1216–1266): interval bound check,
ectopic rejection, interval push with cap 60, smoothed-heart-rate update. -/
def acceptStage (s : DetState) (peakTime : ℤ) : DetState :=
  match s.lastRPeak with
  | none => s
  | some t =>
    let rrInterval := peakTime - t
    if 333 ≤ rrInterval ∧ rrInterval ≤ 1500 then
      if ectopicAccept s.rr rrInterval then
        let rr2 := capList 60 (s.rr ++ [rrInterval])
        { s with rr := rr2, heartRate := smoothedHR rr2 s.heartRate }
      else s
    else s

/-- One step of `detectRPeakMultiLead` on the sample vector `mvs` arriving at
time `now`. -/
def detectStep (s : DetState) (mvs : List ℚ) (now : ℤ) : DetState :=
  let refractory :=
    match s.lastRPeak with
    | some t => decide (now - t < 300)
    | none => false
  if refractory then s
  else
    let x := mvs.getD 1 0
    let buf2 := capList 15 (s.buf ++ [⟨x, |x|, now⟩])
    if buf2.length < 9 then { s with buf := buf2 }
    else
      let len := buf2.length
      let mid := len / 2
      let midS := buf2.getD mid ⟨0, 0, 0⟩
      let maxAbs := maxListQ (buf2.map (·.absSignal))
      let avgAbs := meanQ (buf2.map (·.absSignal))
      let threshold := max (15 / 100) (max (maxAbs * (1 / 2)) (avgAbs * 2))
      let isLocalMax :=
        (neighborIdx mid len).all (fun i => (buf2.getD i ⟨0, 0, 0⟩).signal < midS.signal)
      let isLocalMin :=
        (neighborIdx mid len).all (fun i => midS.signal < (buf2.getD i ⟨0, 0, 0⟩).signal)
      let isPeak :=
        (isLocalMax || (isLocalMin && decide (midS.signal < -threshold))) &&
          decide (threshold < midS.absSignal)
      if isPeak then
        let s2 := acceptStage { s with buf := buf2 } midS.time
        { s2 with lastRPeak := some midS.time, track := s2.track ++ [(now, midS.time)] }
      else { s with buf := buf2 }

/-- Run the detector over a list of `(sample vector, arrival time)` events. -/
def runDet (events : List (List ℚ × ℤ)) : DetState :=
  events.foldl (fun s e => detectStep s e.1 e.2) detInit

/-! The advanced HRV engine (`calculateAdvancedHRV`, ECGVisualizer.jsx
lines 1277–1385).

The source computes `sdnn = Math.sqrt(variance)` and
`rmssd = Math.sqrt(sumSquaredDiffs / (rr.length - 1))` and then only ever

* compares them against constant thresholds (status classification), or
* squares them again (`rmssd * rmssd` in the HF-power estimate), or
* rounds scaled copies for display.

All of these are exact on the squares: for `c > 0` and `v ≥ 0`,
`√v < c ↔ v < c²` and `c < √v ↔ c² < v`, `(√v)² = v`, and
`Math.round (k·√v) = roundSqrtQ (k²·v)`.  The model therefore works with
`hrvVariance` (= sdnn²) and `hrvMsd` (= rmssd²) and encodes each use
accordingly; the claim-level theorems state the thresholds back in terms of
`Real.sqrt`. -/

/-- Minimum of a list (`Math.min(...)`); `0` on the empty list, which the
source never hits. -/
def minListQ : List ℚ → ℚ
  | [] => 0
  | x :: xs => xs.foldl min x

/-- Consecutive differences `rr[i] − rr[i−1]`. -/
def succDiffs (l : List ℚ) : List ℚ :=
  (l.zip l.tail).map (fun p => p.2 - p.1)

/-- The variance of the interval list (mean of squared deviations from the
mean); `sdnn` is its square root. -/
def hrvVariance (rr : List ℚ) : ℚ :=
  ((rr.map (fun v => (v - meanQ rr) ^ 2)).sum) / rr.length

/-- Mean squared successive difference, divided by `rr.length − 1`;
`rmssd` is its square root. -/
def hrvMsd (rr : List ℚ) : ℚ :=
  ((succDiffs rr).map (fun d => d ^ 2)).sum / ((rr.length : ℚ) - 1)

/-- `pNNx`: percentage of consecutive differences whose magnitude exceeds
`thr` (0 when fewer than two intervals). -/
def pnnQ (thr : ℚ) (rr : List ℚ) : ℚ :=
  if 1 < rr.length then
    (((succDiffs rr).filter (fun d => decide (thr < |d|))).length : ℚ) /
      ((rr.length : ℚ) - 1) * 100
  else 0

/-- The status classification (lines 1360–1367), expressed on the squares of
`sdnn` and `rmssd`: `sdnn < 30 ↔ varQ < 900`, `rmssd < 15 ↔ msdQ < 225`,
`sdnn > 80 ↔ varQ > 6400`, `rmssd > 40 ↔ msdQ > 1600`,
`sdnn > 50 ↔ varQ > 2500`, `rmssd > 25 ↔ msdQ > 625`. -/
def hrvStatusOfSq (varQ msdQ : ℚ) : String :=
  if varQ < 900 ∨ msdQ < 225 then "low"
  else if 6400 < varQ ∧ 1600 < msdQ then "athletic"
  else if 2500 < varQ ∧ 625 < msdQ then "high"
  else "normal"

/-- The status computed from an interval list. -/
def calcHrvStatus (rr : List ℚ) : String :=
  hrvStatusOfSq (hrvVariance rr) (hrvMsd rr)

/-- The metrics record written by `setHrvMetrics` (lines 1370–1384), with
display strings and exact values as documented field by field. -/
structure AdvHRV where
  sdnn : ℚ
  rmssd : ℚ
  pnn50 : ℚ
  pnn20 : ℚ
  meanRR : ℤ
  minHR : ℤ
  maxHR : ℤ
  triangularIndex : ℚ
  lfPower : ℚ
  hfPower : ℚ
  lfHf : ℚ
  stressIndex : ℚ
  respiratoryRate : ℤ
  deriving Repr, DecidableEq

/-- The body of `calculateAdvancedHRV` past its length guard.

Encodings of the square roots (all exact, see the section comment):
`Math.round(sdnn·10)/10 = roundSqrtQ (100·variance) / 10`,
`Math.round(rmssd·10)/10 = roundSqrtQ (100·msd) / 10`,
`hfPower` uses `rmssd·rmssd = msd`,
`stressIndex`: `cv = (sdnn/meanRR)·100 > 0 ↔ (0 < variance ∧ 0 < meanRR)`
and then `(10/cv)·100 = 10·meanRR/sdnn = √(100·meanRR²/variance)`,
`respiratoryRate = Math.round(12 + min 8 (rmssd/10))`, which is `20` when
`msd ≥ 6400` and `12 + roundSqrtQ (msd/100)` otherwise. -/
def advHRVCore (rr : List ℚ) : AdvHRV :=
  let varQ := hrvVariance rr
  let msdQ := hrvMsd rr
  let mRR := meanQ rr
  let minRR := minListQ rr
  let maxRR := maxListQ rr
  let bins := rr.map (fun i => ⌊i / (125 / 4 : ℚ)⌋)
  let histValues := bins.dedup.map (fun b => bins.count b)
  let maxBinCount := match histValues with
    | [] => 1
    | v :: vs => vs.foldl max v
  let triangular := (rr.length : ℚ) / (max 1 maxBinCount : ℕ)
  let hfPower : ℚ := if 10 ≤ rr.length then (jsRound (msdQ / 100) : ℚ) / 10 else 0
  let lfPower : ℚ :=
    if 10 ≤ rr.length then max 0 ((jsRound ((varQ / 100 - hfPower) * 10) : ℚ) / 10) else 0
  let lfHf : ℚ :=
    if 10 ≤ rr.length then
      if 1 / 100 < hfPower then (jsRound (lfPower / hfPower * 100) : ℚ) / 100 else 0
    else 0
  { sdnn := (roundSqrtQ (100 * varQ) : ℚ) / 10
    rmssd := (roundSqrtQ (100 * msdQ) : ℚ) / 10
    pnn50 := (jsRound (pnnQ 50 rr * 10) : ℚ) / 10
    pnn20 := (jsRound (pnnQ 20 rr * 10) : ℚ) / 10
    meanRR := jsRound mRR
    minHR := jsRound (60000 / maxRR)
    maxHR := jsRound (60000 / minRR)
    triangularIndex := (jsRound (triangular * 10) : ℚ) / 10
    lfPower := lfPower
    hfPower := hfPower
    lfHf := lfHf
    stressIndex :=
      if 0 < varQ ∧ 0 < mRR then (roundSqrtQ (100 * mRR ^ 2 / varQ) : ℚ) / 10 else 0
    respiratoryRate := if 6400 ≤ msdQ then 20 else 12 + (roundSqrtQ (msdQ / 100) : ℤ) }

/-- `calculateAdvancedHRV`: returns nothing (no state update) on fewer than
3 intervals; otherwise the metrics record. -/
def advHRV (rr : List ℚ) : Option AdvHRV :=
  if rr.length < 3 then none else some (advHRVCore rr)

/-- The status write (`setHrvStatus`) of the same call. -/
def advHRVStatus (rr : List ℚ) : Option String :=
  if rr.length < 3 then none else some (calcHrvStatus rr)

/-! The report-time risk engine (RiskAnalysis.jsx).

`RiskAnalysis` recomputes all clinical metrics from the report's Lead II
samples: a guard returns the sentinel metric set when no usable Lead II
data of at least two seconds is present (lines 11–14, 49–58); otherwise
R-peaks are detected and the heart-rate, HRV, QRS, QT/QTc, ST and composite
risk metrics are computed.  The JavaScript sentinel string `'--'` is
modelled as `none` of an `Option`-valued field. -/

/-- Heart-rate metric (`calculateHeartRate` result). -/
structure HrE where
  hr : Option ℤ
  status : String
  rrInterval : Option ℤ
  deriving Repr, DecidableEq

/-- HRV metric (`calculateHRV` result). -/
structure HrvE where
  sdnn : Option ℕ
  rmssd : Option ℕ
  status : String
  deriving Repr, DecidableEq

/-- QRS metric (`estimateQRSDuration` result). -/
structure QrsE where
  duration : Option ℤ
  status : String
  deriving Repr, DecidableEq

/-- QT metric (`estimateQTInterval` result). -/
structure QtE where
  qt : Option ℤ
  qtc : Option ℕ
  status : String
  deriving Repr, DecidableEq

/-- ST metric (`checkSTDeviation` result; `deviation` carries the exact
millimetre value whose `toFixed(1)` rendering the page displays). -/
structure StE where
  deviation : Option ℚ
  status : String
  deriving Repr, DecidableEq

/-- Composite risk (`calculateRiskScore` result). -/
structure RiskE where
  score : ℕ
  level : String
  factors : List String
  deriving Repr, DecidableEq

/-- The full metric set. -/
structure MetricsE where
  hr : HrE
  hrv : HrvE
  qrs : QrsE
  qt : QtE
  st : StE
  risk : RiskE
  deriving Repr, DecidableEq

/-- `getDefaultMetrics` (lines 49–58): every value `'--'` (`none`), every
status `'unknown'`, risk `{score: 0, level: 'unknown', factors: []}`. -/
def getDefaultMetricsE : MetricsE :=
  { hr := ⟨none, "unknown", none⟩
    hrv := ⟨none, none, "unknown"⟩
    qrs := ⟨none, "unknown"⟩
    qt := ⟨none, none, "unknown"⟩
    st := ⟨none, "unknown"⟩
    risk := ⟨0, "unknown", []⟩ }

/-- `detectRPeaks` (lines 61–94): global 50 %-of-max threshold, strict local
maximum over a ±`windowSize` neighbourhood, minimum spacing
`minPeakDistance` from the previously pushed peak. -/
def detectRPeaksE (samples : List ℚ) (sr : ℕ) : List ℕ :=
  let windowSize := (jsFloor ((sr : ℚ) * (1 / 10))).toNat
  let minPeakDistance := (jsFloor ((sr : ℚ) * (3 / 10))).toNat
  let maxAmp := (samples.map (fun v => |v|)).foldl max 0
  let threshold := maxAmp * (1 / 2)
  let n := samples.length
  let step := fun (st : List ℕ × ℤ) (i : ℕ) =>
    let (peaks, lastPeakIdx) := st
    if windowSize ≤ i ∧ i + windowSize < n then
      if threshold < samples.getD i 0 ∧ (minPeakDistance : ℤ) < (i : ℤ) - lastPeakIdx then
        let nbrs := ((List.range (2 * windowSize + 1)).map
          (fun k => i - windowSize + k)).filter (fun j => j ≠ i)
        if nbrs.all (fun j => decide (samples.getD j 0 < samples.getD i 0)) then
          (peaks ++ [i], (i : ℤ))
        else st
      else st
    else st
  ((List.range n).foldl step ([], -(minPeakDistance : ℤ))).1

/-- `calculateHeartRate` (lines 97–123). -/
def calculateHeartRateE (rPeaks : List ℕ) (sr : ℕ) : HrE :=
  if rPeaks.length < 2 then ⟨none, "unknown", none⟩
  else
    let rrIntervals := (rPeaks.zip rPeaks.tail).map
      (fun p => ((p.2 : ℚ) - (p.1 : ℚ)) / sr)
    let avgRR := meanQ rrIntervals
    let hr := jsRound (60 / avgRR)
    let status :=
      if hr < 60 then "warning"
      else if 100 < hr then "warning"
      else if hr < 50 ∨ 120 < hr then "danger"
      else "normal"
    ⟨some hr, status, some (jsRound (avgRR * 1000))⟩

/-- `calculateHRV` of RiskAnalysis.jsx (lines 126–155); the rounded square
roots are computed with `roundSqrtQ`. -/
def calculateHRVRiskE (rPeaks : List ℕ) (sr : ℕ) : HrvE :=
  if rPeaks.length < 3 then ⟨none, none, "unknown"⟩
  else
    let rrIntervals := (rPeaks.zip rPeaks.tail).map
      (fun p => ((p.2 : ℚ) - (p.1 : ℚ)) / sr * 1000)
    let m := meanQ rrIntervals
    let variance := ((rrIntervals.map (fun v => (v - m) ^ 2)).sum) / (rrIntervals.length : ℚ)
    let sdnn := roundSqrtQ variance
    let msd := ((succDiffs rrIntervals).map (fun d => d ^ 2)).sum /
      ((rrIntervals.length : ℚ) - 1)
    let rmssd := roundSqrtQ msd
    let status := if sdnn < 30 then "danger" else if sdnn < 50 then "warning" else "normal"
    ⟨some sdnn, some rmssd, status⟩

/-- `estimateQRSDuration` (lines 158–207). -/
def estimateQRSDurationE (samples : List ℚ) (rPeaks : List ℕ) (sr : ℕ) : QrsE :=
  if rPeaks.length < 1 then ⟨none, "unknown"⟩
  else
    let searchWindow := (jsFloor ((sr : ℚ) * (1 / 10))).toNat
    let widths := rPeaks.filterMap (fun p =>
      let peakAmp := samples.getD p 0
      let below := fun i => decide (|samples.getD i 0| < |peakAmp| * (3 / 10))
      let qStart := (((List.range (min searchWindow p)).map (fun k => p - k)).find?
        below).getD p
      let qEnd := (((List.range (min samples.length (p + searchWindow) - p)).map
        (fun k => p + k)).find? below).getD p
      let qrsMs := ((qEnd - qStart : ℕ) : ℚ) / sr * 1000
      if 40 < qrsMs ∧ qrsMs < 200 then some qrsMs else none)
    if widths.isEmpty then ⟨none, "unknown"⟩
    else
      let avgQRS := jsRound (meanQ widths)
      let status :=
        if 120 < avgQRS then "danger" else if 100 < avgQRS then "warning" else "normal"
      ⟨some avgQRS, status⟩

/-- `estimateQTInterval` (lines 210–233).  With `avgRR = 60/hr` the source
computes `qtc = Math.round(estimatedQT / Math.sqrt(avgRR))` where
`estimatedQT = 400·avgRR`; since `avgRR > 0`,
`estimatedQT/√avgRR = 400·√avgRR = √(160000·avgRR)`, rounded exactly by
`roundSqrtQ`. -/
def estimateQTIntervalE (rPeaks : List ℕ) (hr : Option ℤ) : QtE :=
  match hr with
  | none => ⟨none, none, "unknown"⟩
  | some h =>
    if rPeaks.length < 2 ∨ h ≤ 0 then ⟨none, none, "unknown"⟩
    else
      let avgRR : ℚ := 60 / (h : ℚ)
      let estimatedQT := avgRR * (4 / 10) * 1000
      let qtc := roundSqrtQ (160000 * avgRR)
      let status :=
        if 450 < qtc then "danger" else if 430 < qtc then "warning" else "normal"
      ⟨some (jsRound estimatedQT), some qtc, status⟩

/-- `checkSTDeviation` (lines 236–286). -/
def checkSTDeviationE (samples : List ℚ) (rPeaks : List ℕ) (sr : ℕ) : StE :=
  if rPeaks.length < 2 then ⟨none, "unknown"⟩
  else
    let jPointOffset := (jsFloor ((sr : ℚ) * (6 / 100))).toNat
    let stOffset := (jsFloor ((sr : ℚ) * (8 / 100))).toNat
    let b1 := (jsFloor ((sr : ℚ) * (1 / 10))).toNat
    let b2 := (jsFloor ((sr : ℚ) * (5 / 100))).toNat
    let stDeviations := (List.range (rPeaks.length - 1)).filterMap (fun i =>
      let p := rPeaks.getD i 0
      let np := rPeaks.getD (i + 1) 0
      let jStart := p - b1
      let jEnd := p - b2
      let idxs := (List.range (jEnd - jStart)).map (fun k => jStart + k)
      let baseline :=
        if 0 < idxs.length then (idxs.map (fun j => samples.getD j 0)).sum / idxs.length
        else 0
      let stIdx := p + jPointOffset + stOffset
      if stIdx < np ∧ stIdx < samples.length then
        some (samples.getD stIdx 0 - baseline)
      else none)
    if stDeviations.isEmpty then ⟨none, "unknown"⟩
    else
      let deviationMm := meanQ stDeviations * 10
      let status :=
        if 1 < |deviationMm| then "danger"
        else if 1 / 2 < |deviationMm| then "warning"
        else "normal"
      ⟨some deviationMm, status⟩

/-- One scoring step of `calculateRiskScore`: `warning` adds `wPts` points
and `wName`, `danger` adds `dPts` points and `dName`. -/
def riskStep (st : ℕ × List String) (status : String) (wPts dPts : ℕ)
    (wName dName : String) : ℕ × List String :=
  if status = "warning" then (st.1 + wPts, st.2 ++ [wName])
  else if status = "danger" then (st.1 + dPts, st.2 ++ [dName])
  else st

/-- `calculateRiskScore` (lines 289–319). -/
def calculateRiskScoreE (hr : HrE) (hrv : HrvE) (qrs : QrsE) (qt : QtE)
    (st : StE) : RiskE :=
  let acc := riskStep (0, []) hr.status 1 2 "HR abnormal" "HR critical"
  let acc := riskStep acc hrv.status 1 2 "Low HRV" "Very low HRV"
  let acc := riskStep acc qrs.status 1 2 "Wide QRS" "QRS >120ms"
  let acc := riskStep acc qt.status 1 2 "Borderline QTc" "Prolonged QTc"
  let acc := riskStep acc st.status 1 3 "ST deviation" "Significant ST change"
  let level := if 6 ≤ acc.1 then "high" else if 3 ≤ acc.1 then "medium" else "low"
  ⟨acc.1, level, acc.2⟩

/-- The full metric computation on usable Lead II samples (the `useMemo`
body past its guard, lines 16–46). -/
def computeMetricsE (samples : List ℚ) (sr : ℕ) : MetricsE :=
  let rPeaks := detectRPeaksE samples sr
  let hrData := calculateHeartRateE rPeaks sr
  let hrvData := calculateHRVRiskE rPeaks sr
  let qrsData := estimateQRSDurationE samples rPeaks sr
  let qtData := estimateQTIntervalE rPeaks hrData.hr
  let stData := checkSTDeviationE samples rPeaks sr
  { hr := hrData, hrv := hrvData, qrs := qrsData, qt := qtData, st := stData
    risk := calculateRiskScoreE hrData hrvData qrsData qtData stData }

/-- The `leadData` prop: an object that may or may not carry a `leadII`
array. -/
structure LeadDataE where
  leadII : Option (List ℚ)
  deriving Repr, DecidableEq

/-- The guard and dispatch of the `useMemo` (lines 11–14): missing
`leadData`, missing `leadII`, or fewer than `sampleRate * 2` samples yield
`getDefaultMetrics()` before any R-peak detection runs. -/
def metricsOf (leadData : Option LeadDataE) (sampleRate : ℕ) : MetricsE :=
  match leadData with
  | none => getDefaultMetricsE
  | some ld =>
    match ld.leadII with
    | none => getDefaultMetricsE
    | some samples =>
      if samples.length < sampleRate * 2 then getDefaultMetricsE
      else computeMetricsE samples sampleRate

/-! Concrete inputs used by counterexamples and witnesses. -/

/-- A six-lead sample vector carrying `x` on Lead II and `0` elsewhere. -/
def mk6 (x : ℚ) : List ℚ := [0, x, 0, 0, 0, 0]

/-- The calibration-gating scenario of the specification: a calibration-start
control line followed by a valid two-value sample line. -/
def calibScenario : List String := ["Starting Calibration", "0.5,0.8"]

/-- A detector input trace with two detected peaks whose own timestamps are
only 290 ms apart: a spike at time 0 (detected while no refractory applies),
then a spike sample stamped 290 that only becomes the window middle once
processing time has reached 300. -/
def detTraceA : List (List ℚ × ℤ) :=
  [(mk6 0, 0), (mk6 0, 0), (mk6 0, 0), (mk6 0, 0), (mk6 1, 0),
   (mk6 0, 290), (mk6 0, 290), (mk6 0, 290), (mk6 (9 / 10), 290),
   (mk6 0, 300), (mk6 0, 300), (mk6 0, 300), (mk6 0, 300), (mk6 0, 300),
   (mk6 0, 300), (mk6 0, 300)]

/-- A detector input trace producing one accepted R-R interval of 400 ms. -/
def detTraceB : List (List ℚ × ℤ) :=
  [(mk6 0, 0), (mk6 0, 0), (mk6 0, 0), (mk6 0, 0), (mk6 1, 0),
   (mk6 0, 0), (mk6 0, 0), (mk6 0, 0), (mk6 0, 0),
   (mk6 0, 400), (mk6 0, 400), (mk6 0, 400), (mk6 1, 400), (mk6 0, 400),
   (mk6 0, 400), (mk6 0, 400), (mk6 0, 400), (mk6 0, 400), (mk6 0, 400),
   (mk6 0, 400)]

/-! Theorems. -/

/-- C4: a trimmed line whose numeric tokens are exactly `a` and `b` parses to
the six-lead vector `{I = a, II = b, III = b − a, aVR = −(a+b)/2,
aVL = a − b/2, aVF = b − a/2}`. -/
theorem two_token_line_derivation (line : String) (a b : ℚ)
    (h : scanNumTokens line = [a, b]) :
    parseNums (scanNumTokens line) =
      some [a, b, b - a, -((a + b) / 2), a - b / 2, b - a / 2] := by
  rw [h]
  simp only [parseNums, deriveSixFromTwo, List.length_cons, List.length_nil]
  norm_num

/-- C4 witness: the line `"0.5,0.8"` yields `I = 0.5`, `II = 0.8`,
`III = 0.3`, `aVR = −0.65`, `aVL = 0.1`, `aVF = 0.55`. -/
theorem two_token_line_derivation_witness :
    scanNumTokens "0.5,0.8" = [1 / 2, 4 / 5] ∧
    parseNums (scanNumTokens "0.5,0.8") =
      some [1 / 2, 4 / 5, 3 / 10, -(13 / 20), 1 / 10, 11 / 20] := by
  have h : scanNumTokens "0.5,0.8" = [1 / 2, 4 / 5] := by with_unfolding_all decide
  refine ⟨h, (two_token_line_derivation "0.5,0.8" (1 / 2) (4 / 5) h).trans ?_⟩
  norm_num

/-- C8: whenever the buffer-initialisation effect runs (on any change of
`sampleRate` or `secondsWindow`, both integer-valued), it creates six fresh
buffers, each zero-filled (history discarded) of capacity
`max(1, round(sampleRate × windowSeconds))`, and resets the shared write
cursor to `0`. -/
theorem buffer_reinit (sr sw : ℤ) :
    (initBuffers sr sw).buffers.length = 6 ∧
    (∀ b ∈ (initBuffers sr sw).buffers,
      b.length = (max 1 (jsRound ((sr : ℚ) * (sw : ℚ)))).toNat ∧ ∀ x ∈ b, x = 0) ∧
    (initBuffers sr sw).writeIndex = 0 := by
  have hcast : ((sr : ℚ) * (sw : ℚ)) = ((sr * sw : ℤ) : ℚ) := by push_cast; ring
  have hround : jsRound ((sr : ℚ) * (sw : ℚ)) = jsFloor ((sr : ℚ) * (sw : ℚ)) := by
    rw [jsRound, jsFloor, hcast, Int.floor_intCast, Int.floor_int_add]
    norm_num
  refine ⟨by simp [initBuffers], ?_, rfl⟩
  intro b hb
  rw [initBuffers] at hb
  simp only [List.mem_replicate] at hb
  obtain ⟨-, hbeq⟩ := hb
  subst hbeq
  refine ⟨?_, ?_⟩
  · simp [bufCapacity, hround]
  · intro x hx
    exact (List.eq_of_mem_replicate hx)

/-- C8 witness: at `sampleRate = 2`, `secondsWindow = 1` the first buffer has
length `max 1 (round 2) = 2` and is all zeroes. -/
theorem buffer_reinit_witness :
    List.replicate 2 (0 : ℚ) ∈ (initBuffers 2 1).buffers ∧
    ((List.replicate 2 (0 : ℚ)).length = (max 1 (jsRound ((2 : ℚ) * (1 : ℚ)))).toNat ∧
      ∀ x ∈ List.replicate 2 (0 : ℚ), x = 0) := by
  have hmem : List.replicate 2 (0 : ℚ) ∈ (initBuffers 2 1).buffers := by
    have hbuf : (initBuffers 2 1).buffers = List.replicate 6 (List.replicate 2 0) := by
      with_unfolding_all decide
    rw [hbuf]
    exact List.mem_replicate.mpr ⟨by norm_num, rfl⟩
  exact ⟨hmem, (buffer_reinit 2 1).2.1 _ hmem⟩

/-- C3: the heart-rate `danger` classification of the risk engine is
unreachable.  At peaks `[0, 38, 76]` (125 Hz) the rounded mean heart rate is
197 bpm — above the 120 bpm danger bound of the claim — yet the status is
`warning`; at peaks `[0, 167]` the rate is 45 bpm — below the 50 bpm danger
bound — and the status is again `warning`.  The `else if (hr < 50 || hr >
120)` branch sits behind the `hr < 60` / `hr > 100` warning branches, so it
can never fire. -/
theorem hr_danger_unreachable :
    calculateHeartRateE [0, 38, 76] 125 = ⟨some 197, "warning", some 304⟩ ∧
    (120 : ℤ) < 197 ∧
    calculateHeartRateE [0, 167] 125 = ⟨some 45, "warning", some 1336⟩ ∧
    (45 : ℤ) < 50 := by
  exact ⟨by with_unfolding_all decide, by norm_num, by with_unfolding_all decide, by norm_num⟩

/-- C9: when `leadData` is absent, carries no `leadII` array, or its
`leadII` holds fewer than `2 × sampleRate` samples, the risk engine returns
the full sentinel metric set (every value `'--'`/`none`, every status
`unknown`, risk `{score 0, level unknown, factors []}`) straight from the
guard, before any R-peak detection. -/
theorem default_metrics_guard (leadData : Option LeadDataE) (sampleRate : ℕ)
    (h : leadData = none ∨ (∃ d, leadData = some d ∧ d.leadII = none) ∨
      (∃ d s, leadData = some d ∧ d.leadII = some s ∧ s.length < sampleRate * 2)) :
    metricsOf leadData sampleRate = getDefaultMetricsE ∧
    getDefaultMetricsE =
      ⟨⟨none, "unknown", none⟩, ⟨none, none, "unknown"⟩, ⟨none, "unknown"⟩,
        ⟨none, none, "unknown"⟩, ⟨none, "unknown"⟩, ⟨0, "unknown", []⟩⟩ := by
  refine ⟨?_, rfl⟩
  rcases h with h | ⟨d, hd, hII⟩ | ⟨d, s, hd, hII, hlen⟩
  · rw [h, metricsOf]
  · rw [hd, metricsOf, hII]
  · rw [hd, metricsOf, hII]
    simp [hlen]

/-- C9 witness: absent `leadData` at the default sample rate yields the
sentinel metric set. -/
theorem default_metrics_guard_witness :
    metricsOf none 125 = getDefaultMetricsE ∧
    getDefaultMetricsE =
      ⟨⟨none, "unknown", none⟩, ⟨none, none, "unknown"⟩, ⟨none, "unknown"⟩,
        ⟨none, none, "unknown"⟩, ⟨none, "unknown"⟩, ⟨0, "unknown", []⟩⟩ :=
  default_metrics_guard none 125 (Or.inl rfl)

/-- C1 (code-bug evidence): in the calibration-gating scenario — a
`"Starting Calibration"` control line followed by the valid sample line
`"0.5,0.8"`, starting from a connect on a render with `isCalibrating =
false` — the calibration state is on (`isCalibrating = true`), yet the
sample is still written to the ring buffers: the shared cursor advances to
`1`.  The gate at line 547 reads the closure-captured binding (`false` for
the whole run), not the live state.  The third conjunct shows the gate
*would* discard the sample (cursor stays `0`) if the captured binding were
`true`, i.e. the discard logic exists but tests the wrong cell. -/
theorem calibration_gate_not_enforced (hpA lpA : ℚ) :
    (runConnect (defaultCfg hpA lpA) false calibScenario).isCalibrating = true ∧
    (runConnect (defaultCfg hpA lpA) false calibScenario).writeIndex = 1 ∧
    (runConnect (defaultCfg hpA lpA) true calibScenario).writeIndex = 0 := by
  refine ⟨?_, ?_, ?_⟩ <;> with_unfolding_all rfl

/-- Supporting lemma for the auto-stop analysis: the per-lead cut of the
intermediate `snap` (lines 633–650) has exactly `1 × sampleRate` samples
whenever at least `sampleRate` samples were recorded — the second ending at
the boundary when the full 15 s of samples exist, the tail of the array
otherwise — and the `snap`-level `__meta` tag is `excerptSeconds = 1`,
`captureAt = 15`.  (The normalization stage then drops this tag; see the
C2 theorem `auto_stop_report` below.) -/
theorem auto_stop_excerpt (sr : ℕ) (arr : List ℚ) (h1 : 1 ≤ sr)
    (h2 : sr ≤ arr.length) :
    (autoStopSnap sr 15 arr).1.length = sr ∧
    (autoStopSnap sr 15 arr).2 = ⟨1, some 15, 15 * sr⟩ ∧
    (15 * sr ≤ arr.length →
      (autoStopSnap sr 15 arr).1 = (arr.take (15 * sr)).drop (14 * sr)) ∧
    (arr.length < 15 * sr →
      (autoStopSnap sr 15 arr).1 = arr.drop (arr.length - sr)) := by
  have hmeta : (autoStopSnap sr 15 arr).2 = ⟨1, some 15, 15 * sr⟩ := by
    simp [autoStopSnap]
  simp only [autoStopSnap, jsSliceNN, takeLast]
  by_cases hA : 15 * sr ≤ arr.length
  · rw [if_pos hA]
    refine ⟨?_, hmeta, fun _ => ?_, fun hB => absurd hA (by omega)⟩
    · rw [List.length_drop, List.length_take]
      omega
    · rw [min_eq_left hA, show 15 * sr - sr = 14 * sr by omega]
  · rw [if_neg hA]
    push_neg at hA
    by_cases hB : sr < arr.length
    · rw [if_pos hB]
      refine ⟨?_, hmeta, fun h => absurd h (by omega), fun _ => rfl⟩
      rw [List.length_drop]
      omega
    · rw [if_neg hB]
      have hzero : arr.length - sr = 0 := by omega
      exact ⟨by omega, hmeta, fun h => absurd h (by omega),
        fun _ => by rw [hzero, List.drop_zero]⟩

/-- Concrete instance of the snap-stage lemma: at `sampleRate = 1` on a
16-sample recording (16 seconds of signal) the auto-stop cut has exactly
1 sample and the intermediate snapshot's tag is `excerptSeconds = 1`,
`captureAt = 15`. -/
theorem auto_stop_excerpt_witness :
    (1 ≤ 1 ∧ 1 ≤ (List.replicate 16 (0 : ℚ)).length) ∧
    ((autoStopSnap 1 15 (List.replicate 16 (0 : ℚ))).1.length = 1 ∧
      (autoStopSnap 1 15 (List.replicate 16 (0 : ℚ))).2 = ⟨1, some 15, 15 * 1⟩ ∧
      (15 * 1 ≤ (List.replicate 16 (0 : ℚ)).length →
        (autoStopSnap 1 15 (List.replicate 16 (0 : ℚ))).1 =
          ((List.replicate 16 (0 : ℚ)).take (15 * 1)).drop (14 * 1)) ∧
      ((List.replicate 16 (0 : ℚ)).length < 15 * 1 →
        (autoStopSnap 1 15 (List.replicate 16 (0 : ℚ))).1 =
          (List.replicate 16 (0 : ℚ)).drop ((List.replicate 16 (0 : ℚ)).length - 1))) :=
  ⟨⟨le_refl 1, by simp⟩, auto_stop_excerpt 1 (List.replicate 16 0) (le_refl 1) (by simp)⟩

/-- C2 (code-bug evidence): on the claim's own scenario — an auto stop at
the 15-second boundary of a 16-second recording at 125 Hz — the published
report's primary-lead (Lead II) array has exactly `1 × sampleRate = 125`
samples, and the excerpt metadata `excerptSeconds = 1`, `captureAt = 15` is
computed on the intermediate snapshot (line 650) — but the report object
that `setRecordedData` publishes carries no metadata at all: the
normalization of lines 657–693 copies only the lead arrays, never `__meta`,
so the `drawReportPage` logic that would title the report
"excerpt 1s at 15s" (lines 306–307) can never fire. -/
theorem auto_stop_report :
    (stopRecordingAuto 125 15 recSixteenSec).leadII.length = 125 ∧
    (buildAutoSnap 125 15 recSixteenSec).meta = ⟨1, some 15, 15 * 125⟩ ∧
    (stopRecordingAuto 125 15 recSixteenSec).meta = none := by
  have h := auto_stop_excerpt 125 (List.replicate 2000 (0 : ℚ)) (by norm_num)
    (by rw [List.length_replicate]; norm_num)
  refine ⟨?_, ?_, rfl⟩
  · simp only [stopRecordingAuto, normalizeSnap, buildAutoSnap, recSixteenSec]
    exact h.1
  · simp only [buildAutoSnap]
    norm_num

/-! Helper lemmas for the beat-detector invariants. -/

/-- Elements surviving the cap were in the original list. -/
theorem capList_sub {α : Type} (n : ℕ) (l : List α) :
    ∀ x ∈ capList n l, x ∈ l := by
  intro x hx
  rw [capList] at hx
  split at hx
  · exact List.drop_subset _ l hx
  · exact hx

/-- Length after the cap. -/
theorem capList_length {α : Type} (n : ℕ) (l : List α) :
    (capList n l).length = min n l.length := by
  rw [capList]
  split
  · rw [List.length_drop]
    omega
  · omega

/-- `acceptStage` never touches the `track`, `lastRPeak` or `buf` fields. -/
theorem acceptStage_frame (s : DetState) (t : ℤ) :
    (acceptStage s t).track = s.track ∧ (acceptStage s t).lastRPeak = s.lastRPeak ∧
    (acceptStage s t).buf = s.buf := by
  rcases hL : s.lastRPeak with _ | t0 <;> simp only [acceptStage, hL] <;>
    (try split_ifs) <;> simp [hL]

/-- The interval list after `acceptStage` is unchanged, or extended by one
interval lying in `[333, 1500]` and capped at 60 entries. -/
theorem acceptStage_rr_cases (s : DetState) (t : ℤ) :
    (acceptStage s t).rr = s.rr ∨
    ∃ i : ℤ, 333 ≤ i ∧ i ≤ 1500 ∧ (acceptStage s t).rr = capList 60 (s.rr ++ [i]) := by
  rcases hL : s.lastRPeak with _ | t0
  · left
    simp [acceptStage, hL]
  · simp only [acceptStage, hL]
    split_ifs with hrange haccept
    · right
      exact ⟨t - t0, hrange.1, hrange.2, rfl⟩
    · left
      rfl
    · left
      rfl

/-- The interval list after one detector step is unchanged, or extended by
one interval lying in `[333, 1500]` and capped at 60 entries. -/
theorem detectStep_rr_cases (s : DetState) (mvs : List ℚ) (now : ℤ) :
    (detectStep s mvs now).rr = s.rr ∨
    ∃ i : ℤ, 333 ≤ i ∧ i ≤ 1500 ∧
      (detectStep s mvs now).rr = capList 60 (s.rr ++ [i]) := by
  rcases hL : s.lastRPeak with _ | t0 <;>
    simp only [detectStep, hL] <;>
    split_ifs <;>
    first
      | (left; rfl)
      | (exact acceptStage_rr_cases _ _)

/-- One detector step either leaves `track` and `lastRPeak` unchanged, or
appends one accepted peak `(now, p)`, sets `lastRPeak` to its timestamp, and
in that case the refractory check guarantees that `now` is at least 300 ms
after the previously recorded peak timestamp. -/
theorem detectStep_track_cases (s : DetState) (mvs : List ℚ) (now : ℤ) :
    ((detectStep s mvs now).track = s.track ∧
      (detectStep s mvs now).lastRPeak = s.lastRPeak) ∨
    ∃ p : ℤ,
      (detectStep s mvs now).track = s.track ++ [(now, p)] ∧
      (detectStep s mvs now).lastRPeak = some p ∧
      (∀ t, s.lastRPeak = some t → t + 300 ≤ now) := by
  rcases hL : s.lastRPeak with _ | t0 <;>
    simp only [detectStep, hL] <;>
    split_ifs <;>
    first
      | exact absurd ‹False› (by simp)
      | exact Or.inl ⟨rfl, rfl⟩
      | exact Or.inl ⟨rfl, hL⟩
      | (refine Or.inr ⟨_, ?_, rfl, fun t ht => ?_⟩
         · rw [(acceptStage_frame _ _).1]
         · injection ht with ht
           subst ht
           rename_i href _ _
           simp only [decide_eq_true_eq] at href
           omega)
      | (refine Or.inr ⟨_, ?_, rfl, fun t ht => absurd ht (by simp)⟩
         rw [(acceptStage_frame _ _).1])

/-- C6: in every reachable detector state, every retained R-R interval lies
in the closed range `[333, 1500]` ms, and the interval list never holds more
than 60 entries. -/
theorem rr_bounds_invariant (events : List (List ℚ × ℤ)) :
    (∀ x ∈ (runDet events).rr, 333 ≤ x ∧ x ≤ 1500) ∧
    (runDet events).rr.length ≤ 60 := by
  suffices H : ∀ (l : List (List ℚ × ℤ)) (s : DetState),
      ((∀ x ∈ s.rr, 333 ≤ x ∧ x ≤ 1500) ∧ s.rr.length ≤ 60) →
      ((∀ x ∈ (l.foldl (fun s e => detectStep s e.1 e.2) s).rr, 333 ≤ x ∧ x ≤ 1500) ∧
        (l.foldl (fun s e => detectStep s e.1 e.2) s).rr.length ≤ 60) by
    exact H events detInit ⟨by simp [detInit], by simp [detInit]⟩
  intro l
  induction l with
  | nil => exact fun s h => h
  | cons e tl ih =>
    intro s h
    refine ih _ ?_
    rcases detectStep_rr_cases s e.1 e.2 with heq | ⟨i, h1, h2, heq⟩
    · rw [heq]
      exact h
    · rw [heq]
      constructor
      · intro x hx
        rcases List.mem_append.mp (capList_sub _ _ x hx) with hx' | hx'
        · exact h.1 x hx'
        · rw [List.mem_singleton] at hx'
          subst hx'
          exact ⟨h1, h2⟩
      · rw [capList_length]
        omega

/-- C6 witness: the trace `detTraceB` leaves one interval, 400 ms, in the
list, and the invariant instantiates to `333 ≤ 400 ∧ 400 ≤ 1500`. -/
theorem rr_bounds_invariant_witness :
    (400 : ℤ) ∈ (runDet detTraceB).rr ∧ (333 ≤ (400 : ℤ) ∧ (400 : ℤ) ≤ 1500) := by
  have hmem : (400 : ℤ) ∈ (runDet detTraceB).rr := by with_unfolding_all decide
  exact ⟨hmem, (rr_bounds_invariant detTraceB).1 400 hmem⟩

/-- C5 counterexample: on the trace `detTraceA`, the detector accepts two
R-peaks whose recorded timestamps are `0` and `290` — only 290 ms apart, in
violation of the claimed 300 ms spacing of the accepted-beat timestamp
track.  (The refractory check compares the candidate's arrival time, 300,
against the last peak's timestamp, 0; the accepted candidate itself is the
middle sample of the detection window and is stamped 290.) -/
theorem refractory_spacing_counterexample :
    (runDet detTraceA).track.map (fun e => e.2) = [0, 290] ∧
    ¬ List.Chain' (fun t1 t2 : ℤ => t1 + 300 ≤ t2)
      ((runDet detTraceA).track.map (fun e => e.2)) := by
  have h1 : (runDet detTraceA).track.map (fun e => e.2) = [0, 290] := by
    with_unfolding_all decide
  refine ⟨h1, fun hc => ?_⟩
  rw [h1] at hc
  have h2 := (List.chain'_cons.mp hc).1
  omega

/-- C5 (amended): a candidate sample arriving within 300 ms of the last
accepted peak's timestamp is ignored, so whenever the detector accepts a
peak, its processing (arrival) time is at least 300 ms after the previous
accepted peak's timestamp: consecutive track entries `(now₁, p₁)`,
`(now₂, p₂)` always satisfy `p₁ + 300 ≤ now₂`.  (The peaks' own timestamps
may still be closer than 300 ms, as the counterexample shows.) -/
theorem refractory_arrival_spacing (events : List (List ℚ × ℤ)) :
    List.Chain' (fun a b : ℤ × ℤ => a.2 + 300 ≤ b.1) (runDet events).track := by
  suffices H : ∀ (l : List (List ℚ × ℤ)) (s : DetState),
      (List.Chain' (fun a b : ℤ × ℤ => a.2 + 300 ≤ b.1) s.track ∧
        (∀ e, s.track.getLast? = some e → s.lastRPeak = some e.2)) →
      List.Chain' (fun a b : ℤ × ℤ => a.2 + 300 ≤ b.1)
        (l.foldl (fun s e => detectStep s e.1 e.2) s).track by
    exact H events detInit ⟨by simp [detInit], by simp [detInit]⟩
  intro l
  induction l with
  | nil => exact fun s h => h.1
  | cons e tl ih =>
    intro s h
    refine ih _ ?_
    rcases detectStep_track_cases s e.1 e.2 with ⟨ht, hl⟩ | ⟨p, ht, hl, href⟩
    · rw [ht, hl]
      exact h
    · rw [ht, hl]
      constructor
      · rw [List.chain'_append]
        refine ⟨h.1, List.chain'_singleton _, ?_⟩
        intro x hx y hy
        simp only [List.head?_cons, Option.mem_def, Option.some.injEq] at hy
        subst hy
        have hlast := h.2 x hx
        have := href x.2 hlast
        simpa using this
      · intro e' he'
        rw [List.getLast?_concat] at he'
        injection he' with he'
        subst he'
        rfl

/-! Helper lemmas for the HRV engine. -/

/-- The variance is nonnegative. -/
theorem hrvVariance_nonneg (rr : List ℚ) : 0 ≤ hrvVariance rr := by
  rw [hrvVariance]
  apply div_nonneg
  · apply List.sum_nonneg
    intro x hx
    simp only [List.mem_map] at hx
    obtain ⟨v, -, rfl⟩ := hx
    positivity
  · positivity

/-- The mean squared successive difference is nonnegative for nonempty
lists. -/
theorem hrvMsd_nonneg (rr : List ℚ) (h : 1 ≤ rr.length) : 0 ≤ hrvMsd rr := by
  rw [hrvMsd]
  apply div_nonneg
  · apply List.sum_nonneg
    intro x hx
    simp only [List.mem_map] at hx
    obtain ⟨v, -, rfl⟩ := hx
    positivity
  · have : (1 : ℚ) ≤ (rr.length : ℚ) := by exact_mod_cast h
    linarith

/-- Case analysis of the status classifier on the squared quantities,
with the exact precedence of the source's `if`/`else if` chain. -/
theorem hrvStatusOfSq_spec (vq mq : ℚ) :
    (hrvStatusOfSq vq mq = "low" ↔ (vq < 900 ∨ mq < 225)) ∧
    (hrvStatusOfSq vq mq = "athletic" ↔
      (¬(vq < 900 ∨ mq < 225) ∧ (6400 < vq ∧ 1600 < mq))) ∧
    (hrvStatusOfSq vq mq = "high" ↔
      (¬(vq < 900 ∨ mq < 225) ∧ ¬(6400 < vq ∧ 1600 < mq) ∧ (2500 < vq ∧ 625 < mq))) ∧
    (hrvStatusOfSq vq mq = "normal" ↔
      (¬(vq < 900 ∨ mq < 225) ∧ ¬(6400 < vq ∧ 1600 < mq) ∧
        ¬(2500 < vq ∧ 625 < mq))) := by
  unfold hrvStatusOfSq
  split_ifs with h1 h2 h3
  · exact ⟨iff_of_true rfl h1,
      iff_of_false (by decide) (fun hh => hh.1 h1),
      iff_of_false (by decide) (fun hh => hh.1 h1),
      iff_of_false (by decide) (fun hh => hh.1 h1)⟩
  · exact ⟨iff_of_false (by decide) h1,
      iff_of_true rfl ⟨h1, h2⟩,
      iff_of_false (by decide) (fun hh => hh.2.1 h2),
      iff_of_false (by decide) (fun hh => hh.2.1 h2)⟩
  · exact ⟨iff_of_false (by decide) h1,
      iff_of_false (by decide) (fun hh => h2 hh.2),
      iff_of_true rfl ⟨h1, h2, h3⟩,
      iff_of_false (by decide) (fun hh => hh.2.2 h3)⟩
  · exact ⟨iff_of_false (by decide) h1,
      iff_of_false (by decide) (fun hh => h2 hh.2),
      iff_of_false (by decide) (fun hh => h3 hh.2.2),
      iff_of_true rfl ⟨h1, h2, h3⟩⟩

/-- C7: for every interval list of length at least 3, the HRV engine
produces a status, and — writing `sdnn = √variance` and `rmssd = √msd` as
the source does — the status is `low` iff `sdnn < 30 ∨ rmssd < 15`, else
`athletic` iff `sdnn > 80 ∧ rmssd > 40`, else `high` iff
`sdnn > 50 ∧ rmssd > 25`, else `normal`, with exactly that precedence. -/
theorem hrv_status_thresholds (rr : List ℚ) (h3 : 3 ≤ rr.length) :
    advHRVStatus rr = some (calcHrvStatus rr) ∧
    (calcHrvStatus rr = "low" ↔
      (Real.sqrt (hrvVariance rr) < 30 ∨ Real.sqrt (hrvMsd rr) < 15)) ∧
    (calcHrvStatus rr = "athletic" ↔
      (¬(Real.sqrt (hrvVariance rr) < 30 ∨ Real.sqrt (hrvMsd rr) < 15) ∧
        (80 < Real.sqrt (hrvVariance rr) ∧ 40 < Real.sqrt (hrvMsd rr)))) ∧
    (calcHrvStatus rr = "high" ↔
      (¬(Real.sqrt (hrvVariance rr) < 30 ∨ Real.sqrt (hrvMsd rr) < 15) ∧
        ¬(80 < Real.sqrt (hrvVariance rr) ∧ 40 < Real.sqrt (hrvMsd rr)) ∧
        (50 < Real.sqrt (hrvVariance rr) ∧ 25 < Real.sqrt (hrvMsd rr)))) ∧
    (calcHrvStatus rr = "normal" ↔
      (¬(Real.sqrt (hrvVariance rr) < 30 ∨ Real.sqrt (hrvMsd rr) < 15) ∧
        ¬(80 < Real.sqrt (hrvVariance rr) ∧ 40 < Real.sqrt (hrvMsd rr)) ∧
        ¬(50 < Real.sqrt (hrvVariance rr) ∧ 25 < Real.sqrt (hrvMsd rr)))) := by
  have b1 : Real.sqrt (hrvVariance rr) < 30 ↔ hrvVariance rr < 900 := by
    rw [Real.sqrt_lt' (by norm_num : (0 : ℝ) < 30),
      show ((30 : ℝ)) ^ 2 = 900 by norm_num]
    exact_mod_cast Iff.rfl
  have b2 : Real.sqrt (hrvMsd rr) < 15 ↔ hrvMsd rr < 225 := by
    rw [Real.sqrt_lt' (by norm_num : (0 : ℝ) < 15),
      show ((15 : ℝ)) ^ 2 = 225 by norm_num]
    exact_mod_cast Iff.rfl
  have b3 : 80 < Real.sqrt (hrvVariance rr) ↔ 6400 < hrvVariance rr := by
    rw [Real.lt_sqrt (by norm_num : (0 : ℝ) ≤ 80),
      show ((80 : ℝ)) ^ 2 = 6400 by norm_num]
    exact_mod_cast Iff.rfl
  have b4 : 40 < Real.sqrt (hrvMsd rr) ↔ 1600 < hrvMsd rr := by
    rw [Real.lt_sqrt (by norm_num : (0 : ℝ) ≤ 40),
      show ((40 : ℝ)) ^ 2 = 1600 by norm_num]
    exact_mod_cast Iff.rfl
  have b5 : 50 < Real.sqrt (hrvVariance rr) ↔ 2500 < hrvVariance rr := by
    rw [Real.lt_sqrt (by norm_num : (0 : ℝ) ≤ 50),
      show ((50 : ℝ)) ^ 2 = 2500 by norm_num]
    exact_mod_cast Iff.rfl
  have b6 : 25 < Real.sqrt (hrvMsd rr) ↔ 625 < hrvMsd rr := by
    rw [Real.lt_sqrt (by norm_num : (0 : ℝ) ≤ 25),
      show ((25 : ℝ)) ^ 2 = 625 by norm_num]
    exact_mod_cast Iff.rfl
  obtain ⟨s1, s2, s3, s4⟩ := hrvStatusOfSq_spec (hrvVariance rr) (hrvMsd rr)
  refine ⟨?_, ?_, ?_, ?_, ?_⟩
  · rw [advHRVStatus, if_neg (by omega)]
  · rw [calcHrvStatus, s1, b1, b2]
  · rw [calcHrvStatus, s2, b1, b2, b3, b4]
  · rw [calcHrvStatus, s3, b1, b2, b3, b4, b5, b6]
  · rw [calcHrvStatus, s4, b1, b2, b3, b4, b5, b6]

/-- C7 witness: the constant list `[800, 800, 800]` has variance `0` and
msd `0`, so `sdnn = rmssd = 0 < 30` and the status is `low`. -/
theorem hrv_status_thresholds_witness :
    (3 ≤ ([800, 800, 800] : List ℚ).length) ∧
    advHRVStatus [800, 800, 800] = some (calcHrvStatus [800, 800, 800]) ∧
    calcHrvStatus ([800, 800, 800] : List ℚ) = "low" := by
  have h := hrv_status_thresholds [800, 800, 800] (by norm_num)
  refine ⟨by norm_num, h.1, ?_⟩
  apply h.2.1.mpr
  left
  have hv : hrvVariance ([800, 800, 800] : List ℚ) = 0 := by
    with_unfolding_all decide
  rw [hv]
  simp only [Rat.cast_zero, Real.sqrt_zero]
  norm_num

/-- C10: for interval lists with at least 3 but fewer than 10 entries the
HRV engine reports `lfPower = hfPower = lfHfRatio = 0` while still producing
the metrics record; once at least 10 intervals exist, `hfPower` is the
rounded `RMSSD²/100 / 10` estimate (with `RMSSD² = msd` exactly), `lfPower`
is `max(0, round((variance/100 − hfPower)·10)/10)` and the ratio is
`round((lf/hf)·100)/100` gated on `hfPower > 0.01`. -/
theorem hrv_freq_domain_gate (rr : List ℚ) (h3 : 3 ≤ rr.length) :
    advHRV rr = some (advHRVCore rr) ∧
    (rr.length < 10 →
      (advHRVCore rr).lfPower = 0 ∧ (advHRVCore rr).hfPower = 0 ∧
        (advHRVCore rr).lfHf = 0) ∧
    (10 ≤ rr.length →
      ((advHRVCore rr).hfPower =
        ((⌊Real.sqrt (hrvMsd rr) ^ 2 / 100 + 1 / 2⌋ : ℤ) : ℚ) / 10 ∧
       (advHRVCore rr).lfPower =
        max 0 ((jsRound ((hrvVariance rr / 100 - (advHRVCore rr).hfPower) * 10) : ℚ) / 10) ∧
       (advHRVCore rr).lfHf =
        (if 1 / 100 < (advHRVCore rr).hfPower then
          (jsRound ((advHRVCore rr).lfPower / (advHRVCore rr).hfPower * 100) : ℚ) / 100
         else 0))) := by
  refine ⟨by rw [advHRV, if_neg (by omega)], ?_, ?_⟩
  · intro h10
    have hn : ¬ (10 ≤ rr.length) := by omega
    simp [advHRVCore, hn]
  · intro h10
    have hsq : Real.sqrt (hrvMsd rr) ^ 2 = ((hrvMsd rr : ℚ) : ℝ) :=
      Real.sq_sqrt (by exact_mod_cast hrvMsd_nonneg rr (by omega))
    have hfl : (⌊Real.sqrt (hrvMsd rr) ^ 2 / 100 + 1 / 2⌋ : ℤ) =
        jsRound (hrvMsd rr / 100) := by
      rw [hsq, jsRound]
      rw [show ((hrvMsd rr : ℚ) : ℝ) / 100 + 1 / 2 =
        ((hrvMsd rr / 100 + 1 / 2 : ℚ) : ℝ) by push_cast; ring]
      exact Rat.floor_cast _
    rw [hfl]
    refine ⟨?_, ?_, ?_⟩ <;> simp [advHRVCore, h10]

/-- C10 witness: the list `[800, 800, 800]` has 3 intervals (fewer than 10),
so the metrics record exists and reports zero LF power, zero HF power and
zero LF/HF ratio. -/
theorem hrv_freq_domain_gate_witness :
    (3 ≤ ([800, 800, 800] : List ℚ).length ∧ ([800, 800, 800] : List ℚ).length < 10) ∧
    advHRV ([800, 800, 800] : List ℚ) = some (advHRVCore [800, 800, 800]) ∧
    ((advHRVCore ([800, 800, 800] : List ℚ)).lfPower = 0 ∧
      (advHRVCore ([800, 800, 800] : List ℚ)).hfPower = 0 ∧
      (advHRVCore ([800, 800, 800] : List ℚ)).lfHf = 0) := by
  have h := hrv_freq_domain_gate [800, 800, 800] (by norm_num)
  exact ⟨⟨by norm_num, by norm_num⟩, h.1, h.2.1 (by norm_num)⟩

end NextECG

